import Mathlib

/-!
Shallow embedding of `src/S3_DEMO/main.py`, a thin wrapper (`S3Helper`)
around the boto3 S3 client.  Every wrapper method forwards a single request
to the SDK; the SDK's outcome for each call is modelled by an oracle
(`S3Client`).  Each method returns the request it issued, the lines it
printed, and its Python return value.  `download_file` also threads an
explicit local filesystem, since it opens the destination path in `wb`
mode (create/truncate) before issuing the remote call.
-/

namespace S3Demo

/-- Error raised by the provider SDK (`botocore.exceptions.ClientError`);
only its printed representation matters to the wrapper. -/
structure ClientError where
  msg : String
deriving DecidableEq, Repr

/-- One S3 policy statement, mirroring the dict literal at
`main.py:140-146` (keys `Sid`, `Effect`, `Principal`, `Action`, `Resource`). -/
structure PolicyStatement where
  Sid : String
  Effect : String
  Principal : String
  Action : List String
  Resource : String
deriving DecidableEq, Repr

/-- A policy document: the dict literal at `main.py:138-147`
(keys `Version` and `Statement`).  `put_bucket_policy` receives its
`json.dumps` serialization; we keep the structured value, which the
serialization determines injectively. -/
structure PolicyDoc where
  Version : String
  Statement : List PolicyStatement
deriving DecidableEq, Repr

/-- The requests the wrapper can issue to the SDK, one constructor per
`self.s3_client.<method>` call site in `main.py`.  For `createBucket`,
`none` means no `CreateBucketConfiguration` argument was passed, and
`some r` means `CreateBucketConfiguration = \x7b LocationConstraint: r \x7d`. -/
inductive S3Request where
  | createBucket (bucket : String) (locationConstraint : Option String)
  | listBuckets
  | deleteBucket (bucket : String)
  | uploadFile (filePath : String) (bucket : String) (key : String)
  | downloadFileobj (bucket : String) (key : String)
  | deleteObject (bucket : String) (key : String)
  | listObjectsV2 (bucket : String)
  | getBucketPolicy (bucket : String)
  | putBucketPolicy (bucket : String) (policy : PolicyDoc)
deriving DecidableEq, Repr

/-- Oracle for the SDK: the outcome of each `self.s3_client.<method>` call,
as a function of the arguments the wrapper passes.  `Except.error e`
models the SDK raising `ClientError e`; `Except.ok` carries the response
fields the wrapper reads.  `listBucketsResult` yields the bucket names in
`response['Buckets']`; `listObjectsV2Result` yields `none` when the
response has no `'Contents'` key and otherwise the `(Key, Size)` pairs;
`downloadFileobjResult` yields the object bytes written to the file
object; `getBucketPolicyResult` yields `result['Policy']`. -/
structure S3Client where
  createBucketResult : String → Option String → Except ClientError Unit
  listBucketsResult : Except ClientError (List String)
  deleteBucketResult : String → Except ClientError Unit
  uploadFileResult : String → String → String → Except ClientError Unit
  downloadFileobjResult : String → String → Except ClientError (List Nat)
  deleteObjectResult : String → String → Except ClientError Unit
  listObjectsV2Result : String → Except ClientError (Option (List (String × Nat)))
  getBucketPolicyResult : String → Except ClientError String
  putBucketPolicyResult : String → PolicyDoc → Except ClientError Unit

/-- Result of one wrapper method: the SDK requests it issued, the lines it
printed, and its return value (`Unit` for the Python methods that return
`None`). -/
structure CallResult (α : Type) where
  requests : List S3Request
  printed : List String
  ret : α
deriving Repr

/-- Result of `download_file`: the filesystem after the call, plus the
usual request trace and printed lines (the method returns `None`). -/
structure DownloadResult where
  fs : String → Option (List Nat)
  requests : List S3Request
  printed : List String

/-- Local filesystem: contents (as bytes) at each path, `none` when the
path does not exist. -/
def FileSystem : Type := String → Option (List Nat)

/-- The empty filesystem. -/
def fs0 : FileSystem := fun _ => none

/-- Write `content` at `path` (as `open(path, 'wb')` followed by writing
`content` does). -/
def setFile (fs : FileSystem) (path : String) (content : List Nat) : FileSystem :=
  fun q => if q = path then some content else fs q

/-- Model of POSIX `os.path.basename`: the suffix of the path after its
last slash (empty when the path ends in a slash or is empty). -/
def basename (path : String) : String :=
  String.mk (path.data.foldl (fun acc c => if c = '/' then [] else acc ++ [c]) [])

/-- Python `object_name or default`: `None` and the empty string are falsy,
so both select `default` (`main.py:66`). -/
def py_or_default (object_name : Option String) (default : String) : String :=
  match object_name with
  | none => default
  | some s => if s = "" then default else s

/-- `S3Helper.create_bucket` (`main.py:11-30`): one `create_bucket` SDK
call, with a `CreateBucketConfiguration = \x7b LocationConstraint: region \x7d`
argument exactly when `region` is not `None`; returns `True` on success,
prints the error and returns `False` on `ClientError`. -/
def create_bucket (c : S3Client) (bucket_name : String) (region : Option String) :
    CallResult Bool :=
  let pr : List String × Bool :=
    match c.createBucketResult bucket_name region with
    | Except.ok _ =>
        (["Bucket \x27" ++ bucket_name ++ "\x27 created successfully."], true)
    | Except.error e =>
        (["Error creating bucket \x27" ++ bucket_name ++ "\x27: " ++ e.msg], false)
  ⟨[S3Request.createBucket bucket_name region], pr.1, pr.2⟩

/-- `S3Helper.list_buckets` (`main.py:32-42`): prints a header then one
line per bucket name, or the error line on `ClientError`. -/
def list_buckets (c : S3Client) : CallResult Unit :=
  let pr : List String :=
    match c.listBucketsResult with
    | Except.ok names =>
        "Existing buckets:" :: names.map (fun n => " - " ++ n)
    | Except.error e =>
        ["Error listing buckets: " ++ e.msg]
  ⟨[S3Request.listBuckets], pr, ()⟩

/-- `S3Helper.delete_bucket` (`main.py:44-54`). -/
def delete_bucket (c : S3Client) (bucket_name : String) : CallResult Unit :=
  let pr : List String :=
    match c.deleteBucketResult bucket_name with
    | Except.ok _ =>
        ["Bucket \x27" ++ bucket_name ++ "\x27 deleted successfully."]
    | Except.error e =>
        ["Error deleting bucket \x27" ++ bucket_name ++ "\x27: " ++ e.msg]
  ⟨[S3Request.deleteBucket bucket_name], pr, ()⟩

/-- `S3Helper.upload_file` (`main.py:56-73`): the object key defaults to
`os.path.basename(file_path)` whenever `object_name` is falsy
(`object_name = object_name or os.path.basename(file_path)`); returns
`True` on success, prints the error and returns `False` on `ClientError`. -/
def upload_file (c : S3Client) (file_path bucket_name : String)
    (object_name : Option String) : CallResult Bool :=
  let key := py_or_default object_name (basename file_path)
  let pr : List String × Bool :=
    match c.uploadFileResult file_path bucket_name key with
    | Except.ok _ =>
        (["File \x27" ++ file_path ++ "\x27 uploaded to bucket \x27" ++ bucket_name ++
            "\x27 as \x27" ++ key ++ "\x27."], true)
    | Except.error e =>
        (["Error uploading file \x27" ++ file_path ++ "\x27: " ++ e.msg], false)
  ⟨[S3Request.uploadFile file_path bucket_name key], pr.1, pr.2⟩

/-- `S3Helper.download_file` (`main.py:75-88`): `open(download_path, 'wb')`
first creates or truncates the destination, then `download_fileobj`
streams the object bytes into it; on `ClientError` the error is printed
and the destination is left as the empty file the open created. -/
def download_file (c : S3Client) (fs : FileSystem)
    (bucket_name object_name download_path : String) : DownloadResult :=
  let fs1 := setFile fs download_path []
  let out : FileSystem × List String :=
    match c.downloadFileobjResult bucket_name object_name with
    | Except.ok bytes =>
        (setFile fs1 download_path bytes,
         ["File \x27" ++ object_name ++ "\x27 downloaded from bucket \x27" ++
            bucket_name ++ "\x27 to \x27" ++ download_path ++ "\x27."])
    | Except.error e =>
        (fs1, ["Error downloading file \x27" ++ object_name ++ "\x27: " ++ e.msg])
  ⟨out.1, [S3Request.downloadFileobj bucket_name object_name], out.2⟩

/-- `S3Helper.delete_object` (`main.py:90-101`). -/
def delete_object (c : S3Client) (bucket_name object_name : String) : CallResult Unit :=
  let pr : List String :=
    match c.deleteObjectResult bucket_name object_name with
    | Except.ok _ =>
        ["Object \x27" ++ object_name ++ "\x27 deleted from bucket \x27" ++
           bucket_name ++ "\x27."]
    | Except.error e =>
        ["Error deleting object \x27" ++ object_name ++ "\x27: " ++ e.msg]
  ⟨[S3Request.deleteObject bucket_name object_name], pr, ()⟩

/-- `S3Helper.list_objects` (`main.py:103-118`): prints a header, then one
line per object in `response['Contents']`, or the line
`No objects found in the bucket.` when the response has no `'Contents'`
key; prints the error line on `ClientError`. -/
def list_objects (c : S3Client) (bucket_name : String) : CallResult Unit :=
  let pr : List String :=
    match c.listObjectsV2Result bucket_name with
    | Except.ok contents =>
        ("Objects in bucket \x27" ++ bucket_name ++ "\x27:") ::
          (match contents with
           | some objs =>
               objs.map (fun o =>
                 " - " ++ o.1 ++ " (Size: " ++ toString o.2 ++ " bytes)")
           | none => ["No objects found in the bucket."])
    | Except.error e =>
        ["Error listing objects in bucket \x27" ++ bucket_name ++ "\x27: " ++ e.msg]
  ⟨[S3Request.listObjectsV2 bucket_name], pr, ()⟩

/-- `S3Helper.get_bucket_policy` (`main.py:120-130`). -/
def get_bucket_policy (c : S3Client) (bucket_name : String) : CallResult Unit :=
  let pr : List String :=
    match c.getBucketPolicyResult bucket_name with
    | Except.ok policy =>
        ["Bucket policy for \x27" ++ bucket_name ++ "\x27: " ++ policy]
    | Except.error e =>
        ["Error retrieving policy for bucket \x27" ++ bucket_name ++ "\x27: " ++ e.msg]
  ⟨[S3Request.getBucketPolicy bucket_name], pr, ()⟩

/-- The `bucket_policy` dict literal of `S3Helper.set_bucket_policy`
(`main.py:138-147`), with the bucket name interpolated into the
`Resource` ARN by the f-string at `main.py:145`. -/
def bucket_policy (bucket_name : String) : PolicyDoc :=
  ⟨"2024-10-17",
   [⟨"AddPerm", "Allow", "*", ["s3:GetObject"],
     "arn:aws:s3:::" ++ bucket_name ++ "/*"⟩]⟩

/-- `S3Helper.set_bucket_policy` (`main.py:132-152`): builds the fixed
`bucket_policy` document and issues a single `put_bucket_policy` with its
serialization; it never reads the existing policy. -/
def set_bucket_policy (c : S3Client) (bucket_name : String) : CallResult Unit :=
  let policy := bucket_policy bucket_name
  let pr : List String :=
    match c.putBucketPolicyResult bucket_name policy with
    | Except.ok _ =>
        ["Public read policy set for bucket \x27" ++ bucket_name ++ "\x27."]
    | Except.error e =>
        ["Error setting policy for bucket \x27" ++ bucket_name ++ "\x27: " ++ e.msg]
  ⟨[S3Request.putBucketPolicy bucket_name policy], pr, ()⟩

/-- The `if __name__ == '__main__'` driver (`main.py:154-188`): the SDK
requests it issues, in call order, with its hardcoded bucket name
`testing-bucket-unisinos` and region `sa-east-1`. -/
def main_requests (c : S3Client) (fs : FileSystem) : List S3Request :=
  (list_buckets c).requests ++
  (create_bucket c "testing-bucket-unisinos" (some "sa-east-1")).requests ++
  (list_buckets c).requests ++
  (upload_file c "test_file.txt" "testing-bucket-unisinos" none).requests ++
  (list_objects c "testing-bucket-unisinos").requests ++
  (download_file c fs "testing-bucket-unisinos" "test_file.txt"
    "downloaded_test_file.txt").requests ++
  (delete_object c "testing-bucket-unisinos" "test_file.txt").requests ++
  (list_objects c "testing-bucket-unisinos").requests ++
  (delete_bucket c "testing-bucket-unisinos").requests ++
  (list_buckets c).requests

/-- A client on which every SDK call succeeds. -/
def okClient : S3Client where
  createBucketResult := fun _ _ => Except.ok ()
  listBucketsResult := Except.ok ["alpha"]
  deleteBucketResult := fun _ => Except.ok ()
  uploadFileResult := fun _ _ _ => Except.ok ()
  downloadFileobjResult := fun _ _ => Except.ok [104, 105]
  deleteObjectResult := fun _ _ => Except.ok ()
  listObjectsV2Result := fun _ => Except.ok (some [("k", 3)])
  getBucketPolicyResult := fun _ => Except.ok "policy"
  putBucketPolicyResult := fun _ _ => Except.ok ()

/-- The error every call of `errClient` raises. -/
def boomError : ClientError := ⟨"boom"⟩

/-- A client on which every SDK call raises `ClientError boomError`. -/
def errClient : S3Client where
  createBucketResult := fun _ _ => Except.error boomError
  listBucketsResult := Except.error boomError
  deleteBucketResult := fun _ => Except.error boomError
  uploadFileResult := fun _ _ _ => Except.error boomError
  downloadFileobjResult := fun _ _ => Except.error boomError
  deleteObjectResult := fun _ _ => Except.error boomError
  listObjectsV2Result := fun _ => Except.error boomError
  getBucketPolicyResult := fun _ => Except.error boomError
  putBucketPolicyResult := fun _ _ => Except.error boomError

/-- A client whose `list_objects_v2` response has no `'Contents'` key. -/
def noContentsClient : S3Client where
  createBucketResult := fun _ _ => Except.ok ()
  listBucketsResult := Except.ok []
  deleteBucketResult := fun _ => Except.ok ()
  uploadFileResult := fun _ _ _ => Except.ok ()
  downloadFileobjResult := fun _ _ => Except.ok []
  deleteObjectResult := fun _ _ => Except.ok ()
  listObjectsV2Result := fun _ => Except.ok none
  getBucketPolicyResult := fun _ => Except.ok ""
  putBucketPolicyResult := fun _ _ => Except.ok ()

end S3Demo

namespace S3Demo

/-- C1: for every bucket name and every client, `set_bucket_policy` issues
exactly one `put_bucket_policy` request carrying the fixed policy document,
whose statement list is the single statement granting `s3:GetObject` to
principal `*` on resource `arn:aws:s3:::<bucket>/*`; the request trace
contains no read of the existing policy and the document does not depend
on the client, so nothing is merged and the action set is not a
parameter. -/
theorem set_bucket_policy_fixed_template (c : S3Client) (bucket_name : String) :
    (set_bucket_policy c bucket_name).requests
      = [S3Request.putBucketPolicy bucket_name (bucket_policy bucket_name)]
    ∧ (bucket_policy bucket_name).Statement
      = [⟨"AddPerm", "Allow", "*", ["s3:GetObject"],
          "arn:aws:s3:::" ++ bucket_name ++ "/*"⟩] :=
  ⟨rfl, rfl⟩

/-- C2: whenever the SDK raises a `ClientError` on any of the nine wrapper
operations, the boolean-returning operations (`create_bucket`,
`upload_file`) return `False` and print the error, and the remaining
operations print the error and continue; every wrapper method is a total
function of the client outcome, so no exception propagates past the call
site. -/
theorem client_error_containment (c : S3Client) (e : ClientError)
    (fs : FileSystem) (bucket_name file_path object_name download_path : String)
    (region : Option String) (opt_key : Option String)
    (h1 : c.createBucketResult bucket_name region = Except.error e)
    (h2 : c.listBucketsResult = Except.error e)
    (h3 : c.deleteBucketResult bucket_name = Except.error e)
    (h4 : c.uploadFileResult file_path bucket_name
            (py_or_default opt_key (basename file_path)) = Except.error e)
    (h5 : c.downloadFileobjResult bucket_name object_name = Except.error e)
    (h6 : c.deleteObjectResult bucket_name object_name = Except.error e)
    (h7 : c.listObjectsV2Result bucket_name = Except.error e)
    (h8 : c.getBucketPolicyResult bucket_name = Except.error e)
    (h9 : c.putBucketPolicyResult bucket_name (bucket_policy bucket_name)
            = Except.error e) :
    (create_bucket c bucket_name region).ret = false
    ∧ (create_bucket c bucket_name region).printed
        = ["Error creating bucket \x27" ++ bucket_name ++ "\x27: " ++ e.msg]
    ∧ (upload_file c file_path bucket_name opt_key).ret = false
    ∧ (upload_file c file_path bucket_name opt_key).printed
        = ["Error uploading file \x27" ++ file_path ++ "\x27: " ++ e.msg]
    ∧ (list_buckets c).printed = ["Error listing buckets: " ++ e.msg]
    ∧ (delete_bucket c bucket_name).printed
        = ["Error deleting bucket \x27" ++ bucket_name ++ "\x27: " ++ e.msg]
    ∧ (download_file c fs bucket_name object_name download_path).printed
        = ["Error downloading file \x27" ++ object_name ++ "\x27: " ++ e.msg]
    ∧ (delete_object c bucket_name object_name).printed
        = ["Error deleting object \x27" ++ object_name ++ "\x27: " ++ e.msg]
    ∧ (list_objects c bucket_name).printed
        = ["Error listing objects in bucket \x27" ++ bucket_name ++ "\x27: " ++ e.msg]
    ∧ (get_bucket_policy c bucket_name).printed
        = ["Error retrieving policy for bucket \x27" ++ bucket_name ++ "\x27: " ++ e.msg]
    ∧ (set_bucket_policy c bucket_name).printed
        = ["Error setting policy for bucket \x27" ++ bucket_name ++ "\x27: " ++ e.msg] := by
  refine ⟨?_, ?_, ?_, ?_, ?_, ?_, ?_, ?_, ?_, ?_, ?_⟩ <;>
    simp [create_bucket, upload_file, list_buckets, delete_bucket, download_file,
      delete_object, list_objects, get_bucket_policy, set_bucket_policy,
      h1, h2, h3, h4, h5, h6, h7, h8, h9]

/-- C2 witness: the containment theorem instantiated at `errClient`, on
which every SDK call raises `ClientError boomError`. -/
theorem client_error_containment_witness :
    (create_bucket errClient "bkt" none).ret = false
    ∧ (create_bucket errClient "bkt" none).printed
        = ["Error creating bucket \x27" ++ "bkt" ++ "\x27: " ++ boomError.msg]
    ∧ (upload_file errClient "f.txt" "bkt" none).ret = false
    ∧ (upload_file errClient "f.txt" "bkt" none).printed
        = ["Error uploading file \x27" ++ "f.txt" ++ "\x27: " ++ boomError.msg]
    ∧ (list_buckets errClient).printed = ["Error listing buckets: " ++ boomError.msg]
    ∧ (delete_bucket errClient "bkt").printed
        = ["Error deleting bucket \x27" ++ "bkt" ++ "\x27: " ++ boomError.msg]
    ∧ (download_file errClient fs0 "bkt" "obj" "dst").printed
        = ["Error downloading file \x27" ++ "obj" ++ "\x27: " ++ boomError.msg]
    ∧ (delete_object errClient "bkt" "obj").printed
        = ["Error deleting object \x27" ++ "obj" ++ "\x27: " ++ boomError.msg]
    ∧ (list_objects errClient "bkt").printed
        = ["Error listing objects in bucket \x27" ++ "bkt" ++ "\x27: " ++ boomError.msg]
    ∧ (get_bucket_policy errClient "bkt").printed
        = ["Error retrieving policy for bucket \x27" ++ "bkt" ++ "\x27: " ++ boomError.msg]
    ∧ (set_bucket_policy errClient "bkt").printed
        = ["Error setting policy for bucket \x27" ++ "bkt" ++ "\x27: " ++ boomError.msg] :=
  client_error_containment errClient boomError fs0 "bkt" "f.txt" "obj" "dst" none none
    rfl rfl rfl rfl rfl rfl rfl rfl rfl

/-- C3: `upload_file` with `object_name = None` issues its upload request
under the key `basename file_path`, for every file path, bucket and
client; and on the concrete path of the claim, `basename` of
`/tmp/a/test_file.txt` is `test_file.txt`. -/
theorem upload_default_object_name (c : S3Client) (file_path bucket_name : String) :
    (upload_file c file_path bucket_name none).requests
      = [S3Request.uploadFile file_path bucket_name (basename file_path)]
    ∧ basename "/tmp/a/test_file.txt" = "test_file.txt" :=
  ⟨rfl, by decide⟩

/-- C4: `create_bucket` with `region = None` issues a create-bucket request
with no location constraint, and with `region = some r` it issues one whose
`CreateBucketConfiguration` carries `LocationConstraint r`, for every
bucket name, region and client. -/
theorem create_bucket_location_constraint (c : S3Client) (bucket_name r : String) :
    (create_bucket c bucket_name none).requests
      = [S3Request.createBucket bucket_name none]
    ∧ (create_bucket c bucket_name (some r)).requests
      = [S3Request.createBucket bucket_name (some r)] :=
  ⟨rfl, rfl⟩

/-- C5 counterexample: the driver's request trace is not the claimed
nine-operation sequence starting with the create-bucket request — the
script calls `list_buckets` first (`main.py:161`), before
`create_bucket` (`main.py:164`). -/
theorem main_order_counterexample :
    main_requests okClient fs0 ≠
      [S3Request.createBucket "testing-bucket-unisinos" (some "sa-east-1"),
       S3Request.listBuckets,
       S3Request.uploadFile "test_file.txt" "testing-bucket-unisinos" "test_file.txt",
       S3Request.listObjectsV2 "testing-bucket-unisinos",
       S3Request.downloadFileobj "testing-bucket-unisinos" "test_file.txt",
       S3Request.deleteObject "testing-bucket-unisinos" "test_file.txt",
       S3Request.listObjectsV2 "testing-bucket-unisinos",
       S3Request.deleteBucket "testing-bucket-unisinos",
       S3Request.listBuckets] := by
  decide

/-- C5 amended: for every client and filesystem, the `__main__` driver with
its hardcoded bucket name and region issues exactly, in order: list
buckets, create bucket, list buckets, upload file, list objects, download
file, delete object, list objects, delete bucket, list buckets. -/
theorem main_request_order (c : S3Client) (fs : FileSystem) :
    main_requests c fs =
      [S3Request.listBuckets,
       S3Request.createBucket "testing-bucket-unisinos" (some "sa-east-1"),
       S3Request.listBuckets,
       S3Request.uploadFile "test_file.txt" "testing-bucket-unisinos" "test_file.txt",
       S3Request.listObjectsV2 "testing-bucket-unisinos",
       S3Request.downloadFileobj "testing-bucket-unisinos" "test_file.txt",
       S3Request.deleteObject "testing-bucket-unisinos" "test_file.txt",
       S3Request.listObjectsV2 "testing-bucket-unisinos",
       S3Request.deleteBucket "testing-bucket-unisinos",
       S3Request.listBuckets] :=
  rfl

/-- C6: the policy document `set_bucket_policy` sends has `Version` equal
to the literal `2024-10-17` (`main.py:139`), which differs from the policy
language version identifier `2012-10-17` used by the service. -/
theorem policy_version_mismatch (c : S3Client) (bucket_name : String) :
    (set_bucket_policy c bucket_name).requests
      = [S3Request.putBucketPolicy bucket_name (bucket_policy bucket_name)]
    ∧ (bucket_policy bucket_name).Version = "2024-10-17"
    ∧ (bucket_policy bucket_name).Version ≠ "2012-10-17" := by
  refine ⟨rfl, rfl, ?_⟩
  show ("2024-10-17" : String) ≠ "2012-10-17"
  decide

/-- C7: when the SDK download succeeds with the object's bytes,
`download_file` leaves exactly those bytes at the destination path,
whatever the path previously held — `open(download_path, 'wb')` truncates
it and the object bytes are then written in full. -/
theorem download_overwrites_fully (c : S3Client) (fs : FileSystem)
    (bucket_name object_name download_path : String) (bytes : List Nat)
    (h : c.downloadFileobjResult bucket_name object_name = Except.ok bytes) :
    (download_file c fs bucket_name object_name download_path).fs download_path
      = some bytes := by
  simp [download_file, setFile, h]

/-- C7 witness: downloading over a destination that already holds
`[1, 2, 3]` leaves the object bytes `[104, 105]` of `okClient` there. -/
theorem download_overwrites_fully_witness :
    (download_file okClient (setFile fs0 "dst" [1, 2, 3]) "bkt" "obj" "dst").fs "dst"
      = some [104, 105] :=
  download_overwrites_fully okClient (setFile fs0 "dst" [1, 2, 3]) "bkt" "obj" "dst"
    [104, 105] rfl

/-- C8: when the `list_objects_v2` response has no `Contents` key,
`list_objects` prints the header followed by the line
`No objects found in the bucket.`, and nothing else. -/
theorem list_objects_empty_message (c : S3Client) (bucket_name : String)
    (h : c.listObjectsV2Result bucket_name = Except.ok none) :
    (list_objects c bucket_name).printed
      = ["Objects in bucket \x27" ++ bucket_name ++ "\x27:",
         "No objects found in the bucket."] := by
  simp [list_objects, h]

/-- C8 witness: the empty-bucket message on `noContentsClient`. -/
theorem list_objects_empty_message_witness :
    (list_objects noContentsClient "bkt").printed
      = ["Objects in bucket \x27" ++ "bkt" ++ "\x27:",
         "No objects found in the bucket."] :=
  list_objects_empty_message noContentsClient "bkt" rfl

/-- C9: `download_file` opens the destination in `wb` mode before issuing
the SDK call, so when the call raises a `ClientError` the destination has
already been created or truncated: it ends as the empty file, for every
prior filesystem, and the error is printed. -/
theorem download_truncates_on_error (c : S3Client) (fs : FileSystem)
    (bucket_name object_name download_path : String) (e : ClientError)
    (h : c.downloadFileobjResult bucket_name object_name = Except.error e) :
    (download_file c fs bucket_name object_name download_path).fs download_path
      = some []
    ∧ (download_file c fs bucket_name object_name download_path).printed
      = ["Error downloading file \x27" ++ object_name ++ "\x27: " ++ e.msg] := by
  simp [download_file, setFile, h]

/-- C9 witness: a failing download on `errClient` over a destination that
held `[9, 9]` leaves the empty file there. -/
theorem download_truncates_on_error_witness :
    (download_file errClient (setFile fs0 "dst" [9, 9]) "bkt" "obj" "dst").fs "dst"
      = some []
    ∧ (download_file errClient (setFile fs0 "dst" [9, 9]) "bkt" "obj" "dst").printed
      = ["Error downloading file \x27" ++ "obj" ++ "\x27: " ++ boomError.msg] :=
  download_truncates_on_error errClient (setFile fs0 "dst" [9, 9]) "bkt" "obj" "dst"
    boomError rfl

/-- C10 counterexample: an upload under the empty-string key is possible
through the wrapper: with `file_path = ""` (whose basename is empty) and
`object_name = ""`, `upload_file` issues — and, on `okClient`,
successfully completes — an upload request whose key is `""`. -/
theorem upload_empty_key_counterexample :
    (upload_file okClient "" "bkt" (some "")).requests
      = [S3Request.uploadFile "" "bkt" ""]
    ∧ (upload_file okClient "" "bkt" (some "")).ret = true :=
  ⟨rfl, rfl⟩

/-- C10 amended: `upload_file` treats the empty string exactly like `None`
— the call with `object_name = ""` equals the call with `object_name =
None`, and both default the key to `basename file_path`; hence an
empty-string key is issued only in the degenerate case where
`basename file_path` is itself empty. -/
theorem upload_empty_name_defaults (c : S3Client) (file_path bucket_name : String) :
    upload_file c file_path bucket_name (some "") = upload_file c file_path bucket_name none
    ∧ (upload_file c file_path bucket_name (some "")).requests
      = [S3Request.uploadFile file_path bucket_name (basename file_path)] :=
  ⟨rfl, rfl⟩

end S3Demo
